import Mathlib

set_option linter.unusedVariables false

/-!
Shallow embedding of `src/telephony.py` (ravigorani/Doctor-Appointment-Confirmation).

The program is an outbound-call agent: an `entrypoint` coroutine that connects
to a room, starts an agent session, dials the callee over SIP, binds the
answered participant to the agent, and an `OutboundCaller` agent class whose
tool methods (`transfer_call`, `end_call`, `look_up_availability`,
`confirm_appointment`, `detected_answering_machine`) drive the live call and
whose `hangup` helper deletes the room at the gateway.

Each Python coroutine is embedded as a pure function returning the ordered
list of externally visible actions it performs (its event trace) together
with its Python-level outcome (a normal return value or a raised exception).
An `await` on `session.generate_reply` is a single event standing for the
utterance being issued and fully played out, matching the awaited call in the
source. External outcomes the code cannot decide (did the SIP dial raise
`TwirpError`? did the SIP transfer raise? is an utterance in flight?) are
explicit boolean parameters.
-/

/-- Externally visible actions of the program, in the order the source
performs them. `dialRequest` is `ctx.api.sip.create_sip_participant`,
`transferRequest` is `job_ctx.api.sip.transfer_sip_participant` (it carries
the participant identity and the `tel:`-prefixed destination actually sent),
`deleteRoom` is `job_ctx.api.room.delete_room` inside `hangup`,
`generateReply` is an awaited `ctx.session.generate_reply(instructions=...)`
(the utterance has fully played when the event is in the trace),
`waitForPlayout` is `current_speech.wait_for_playout()`, `bindParticipant`
is `agent.set_participant(participant)`, and `shutdown` is `ctx.shutdown()`. -/
inductive Event where
  | connect : Event
  | startSession : Event
  | dialRequest : String → Event
  | awaitSessionStarted : Event
  | bindParticipant : String → Event
  | logError : Event
  | shutdown : Event
  | generateReply : String → Event
  | waitForPlayout : Event
  | transferRequest : String → String → Event
  | deleteRoom : Event
  | sleepSeconds : Nat → Event
  deriving DecidableEq

/-- Python exceptions raised by the embedded code. -/
inductive PyError where
  | keyError : String → PyError
  | attributeError : String → PyError
  | twirpError : PyError
  deriving DecidableEq

/-- Return values of the tool coroutines. Python functions that fall off the
end (or return from an `except` block without a value) return `None`,
embedded as `noneVal`. -/
inductive ToolResult where
  | str : String → ToolResult
  | availability : List String → ToolResult
  | noneVal : ToolResult
  deriving DecidableEq

/-- A Python dict with string keys and string values, as used for
`dial_info` (keys `phone_number`, `transfer_to`). -/
def Dict := List (String × String)

/-- `d[k]` lookup without raising: `some v` when the key is present. -/
def dictGet (d : Dict) (k : String) : Option String :=
  (d.find? (fun kv => kv.1 = k)).map (fun kv => kv.2)

/-- `rtc.RemoteParticipant`: only its `identity` attribute is read. -/
structure RemoteParticipant where
  identity : String
  deriving DecidableEq

/-- The mutable state of an `OutboundCaller` agent: `self.dial_info` and
`self.participant` (initialized to `None` in `__init__`, set once by
`set_participant`). -/
structure AgentState where
  dial_info : Dict
  participant : Option RemoteParticipant

/-- `OutboundCaller.__init__`: `self.participant = None`. -/
def initAgent (dial_info : Dict) : AgentState :=
  { dial_info := dial_info, participant := none }

/-- `OutboundCaller.set_participant`. -/
def set_participant (a : AgentState) (p : RemoteParticipant) : AgentState :=
  { a with participant := some p }

/-- `OutboundCaller.hangup`: deletes the room at the gateway. Its body is a
single unconditional `delete_room` request; there is no guard or flag, so
its trace is the one-element list every time it is invoked. -/
def hangup : List Event := [Event.deleteRoom]

/-- The trace produced by invoking `hangup` `n` times in sequence on the same
session: the concatenation of `n` copies of its per-invocation trace. -/
def hangupTimes : Nat → List Event
  | 0 => []
  | n + 1 => hangup ++ hangupTimes n

/-- Recognizer for gateway termination requests. -/
def isDeleteRoom : Event → Bool
  | Event.deleteRoom => true
  | _ => false

/-- How many termination requests the gateway sees in a trace. -/
def terminationCount (tr : List Event) : Nat :=
  tr.countP isDeleteRoom

/-- Instruction strings the tools pass to `generate_reply`, verbatim from the
source. -/
def transferNoticeText : String :=
  "let the user know you'll be transferring them"

/-- Apology instruction from the `except` branch of `transfer_call`. -/
def transferApologyText : String :=
  "there was an error transferring the call."

/-- `OutboundCaller.transfer_call`. Reads `self.dial_info["transfer_to"]`
(a raising dict access), returns the declined string when the value is
falsy, otherwise speaks the transfer notice (awaited), then inside
`try` builds the transfer request — evaluating `self.participant.identity`,
which raises `AttributeError` when the participant is `None`, caught by the
`except Exception` handler — and sends it; on any exception in the `try`
block it speaks an apology and calls `hangup`. `transferRaises` is the
external outcome of the gateway transfer call. -/
def transfer_call (a : AgentState) (transferRaises : Bool) :
    List Event × Except PyError ToolResult :=
  match dictGet a.dial_info "transfer_to" with
  | none => ([], Except.error (PyError.keyError "transfer_to"))
  | some transfer_to =>
    if transfer_to = "" then
      ([], Except.ok (ToolResult.str "cannot transfer call"))
    else
      match a.participant with
      | none =>
        ([Event.generateReply transferNoticeText,
          Event.generateReply transferApologyText] ++ hangup,
         Except.ok ToolResult.noneVal)
      | some p =>
        if transferRaises then
          ([Event.generateReply transferNoticeText,
            Event.transferRequest p.identity ("tel:" ++ transfer_to),
            Event.generateReply transferApologyText] ++ hangup,
           Except.ok ToolResult.noneVal)
        else
          ([Event.generateReply transferNoticeText,
            Event.transferRequest p.identity ("tel:" ++ transfer_to)],
           Except.ok ToolResult.noneVal)

/-- `OutboundCaller.end_call`. The first statement's f-string evaluates
`self.participant.identity`, raising `AttributeError` when the participant
is `None`. Otherwise, if the session reports an in-flight utterance
(`currentSpeech`), it awaits `wait_for_playout` before calling `hangup`. -/
def end_call (a : AgentState) (currentSpeech : Bool) :
    List Event × Except PyError ToolResult :=
  match a.participant with
  | none => ([], Except.error (PyError.attributeError "identity"))
  | some _ =>
    ((if currentSpeech then [Event.waitForPlayout] else []) ++ hangup,
     Except.ok ToolResult.noneVal)

/-- `OutboundCaller.look_up_availability`. Its f-string log line evaluates
`self.participant.identity`; then it sleeps 3 seconds and returns the fixed
slot list. -/
def look_up_availability (a : AgentState) (date : String) :
    List Event × Except PyError ToolResult :=
  match a.participant with
  | none => ([], Except.error (PyError.attributeError "identity"))
  | some _ =>
    ([Event.sleepSeconds 3],
     Except.ok (ToolResult.availability ["1pm", "2pm", "3pm"]))

/-- `OutboundCaller.confirm_appointment`. Its f-string log line evaluates
`self.participant.identity`; then it returns the confirmation string. -/
def confirm_appointment (a : AgentState) (date time : String) :
    List Event × Except PyError ToolResult :=
  match a.participant with
  | none => ([], Except.error (PyError.attributeError "identity"))
  | some _ => ([], Except.ok (ToolResult.str "reservation confirmed"))

/-- `OutboundCaller.detected_answering_machine`. Its f-string log line
evaluates `self.participant.identity`; then it calls `hangup` with no
`generate_reply` before it. -/
def detected_answering_machine (a : AgentState) :
    List Event × Except PyError ToolResult :=
  match a.participant with
  | none => ([], Except.error (PyError.attributeError "identity"))
  | some _ => (hangup, Except.ok ToolResult.noneVal)

/-- Outcome of one run of `entrypoint`: its event trace, the participant
bound to the agent at the end of the run (`none` when `set_participant` was
never called), and its Python-level outcome. -/
structure EntryResult where
  trace : List Event
  bound : Option RemoteParticipant
  result : Except PyError Unit

/-- `entrypoint`. After `ctx.connect()`, it reads
`dial_info["phone_number"]` (raising dict access), constructs the agent,
issues the session start as a task (`asyncio.create_task(session.start(...))`)
and then awaits `create_sip_participant` with `wait_until_answered=True`
(`dialFails` is its external outcome: `True` when it raises `TwirpError`).
On success it awaits the session-start task, awaits the participant with the
dialed identity, and binds it via `set_participant`; on `TwirpError` it logs
the error and calls `ctx.shutdown()`, never binding a participant. -/
def entrypoint (metadata : Dict) (dialFails : Bool) : EntryResult :=
  match dictGet metadata "phone_number" with
  | none =>
    { trace := [Event.connect]
      bound := none
      result := Except.error (PyError.keyError "phone_number") }
  | some phone_number =>
    if dialFails then
      { trace := [Event.connect, Event.startSession,
                  Event.dialRequest phone_number, Event.logError,
                  Event.shutdown]
        bound := none
        result := Except.ok () }
    else
      { trace := [Event.connect, Event.startSession,
                  Event.dialRequest phone_number, Event.awaitSessionStarted,
                  Event.bindParticipant phone_number]
        bound := some { identity := phone_number }
        result := Except.ok () }

/-- A trace in which no dial request occurs before the session start is
issued: scanning left to right, a `startSession` must appear before any
`dialRequest`. -/
def noDialBeforeSession : List Event → Bool
  | [] => true
  | Event.startSession :: _ => true
  | Event.dialRequest _ :: _ => false
  | _ :: rest => noDialBeforeSession rest

/-- Recognizer for `ctx.shutdown()` events. -/
def isShutdown : Event → Bool
  | Event.shutdown => true
  | _ => false

/-- Recognizer for `set_participant` binding events. -/
def isBind : Event → Bool
  | Event.bindParticipant _ => true
  | _ => false

/-- Recognizer for awaited `generate_reply` (speech) events. -/
def isSpeech : Event → Bool
  | Event.generateReply _ => true
  | _ => false

/-- Recognizer for gateway transfer requests. -/
def isTransferRequest : Event → Bool
  | Event.transferRequest _ _ => true
  | _ => false

/-- A concrete `dial_info` dict matching the dispatch example in the source
comment. -/
def dialInfoExample : Dict :=
  [("phone_number", "+15551230000"), ("transfer_to", "+15559998888")]

/-- C1 (counterexample): teardown is not idempotent as claimed. Invoking
`hangup` twice on the same session sends two `delete_room` termination
requests to the gateway, not exactly one. -/
theorem hangup_twice_two_terminations :
    1 < 2 ∧ terminationCount (hangupTimes 2) ≠ 1 := by decide

/-- C1 (amended): `hangup` has no per-session guard; each invocation
unconditionally issues a `delete_room` request, so `n` invocations make the
gateway see exactly `n` termination requests. -/
theorem hangup_termination_count (n : Nat) :
    terminationCount (hangupTimes n) = n := by
  induction n with
  | zero => rfl
  | succ k ih =>
    unfold hangupTimes
    simp only [terminationCount, List.countP_append] at ih ⊢
    have h1 : List.countP isDeleteRoom hangup = 1 := by decide
    omega

/-- C2 (counterexample): a tool firing before binding does not fail fast
with a "not yet connected" result. `end_call` on a freshly constructed
agent (participant still `None`) raises `AttributeError` — an exception,
not any returned tool result. -/
theorem end_call_unbound_counterexample :
    (end_call (initAgent dialInfoExample) true).2 =
      Except.error (PyError.attributeError "identity") ∧
    ∀ r, (end_call (initAgent dialInfoExample) true).2 ≠ Except.ok r := by
  refine ⟨rfl, ?_⟩
  intro r h
  simp [end_call, initAgent] at h

/-- C2 (amended): the code has no binding-happens-before-tool-use guard and
no "not yet connected" fast-fail. A tool invoked before `set_participant`
evaluates `self.participant.identity` on `None`: `end_call`,
`look_up_availability`, `confirm_appointment` and
`detected_answering_machine` raise an unhandled `AttributeError`, while
`transfer_call` (with a non-empty target) hits the same `AttributeError`
inside its `try` block, so it is swallowed and the call is apologised to
and hung up. -/
theorem tools_before_binding_raise (a : AgentState) (cs transferRaises : Bool)
    (date time : String) (h : a.participant = none) :
    (end_call a cs).2 = Except.error (PyError.attributeError "identity") ∧
    (look_up_availability a date).2 =
      Except.error (PyError.attributeError "identity") ∧
    (confirm_appointment a date time).2 =
      Except.error (PyError.attributeError "identity") ∧
    (detected_answering_machine a).2 =
      Except.error (PyError.attributeError "identity") ∧
    (∀ tt, dictGet a.dial_info "transfer_to" = some tt → tt ≠ "" →
      transfer_call a transferRaises =
        ([Event.generateReply transferNoticeText,
          Event.generateReply transferApologyText, Event.deleteRoom],
         Except.ok ToolResult.noneVal)) := by
  refine ⟨?_, ?_, ?_, ?_, ?_⟩
  · simp [end_call, h]
  · simp [look_up_availability, h]
  · simp [confirm_appointment, h]
  · simp [detected_answering_machine, h]
  · intro tt htt hne
    simp [transfer_call, htt, hne, h, hangup]

/-- C2 (amended, witness): the amended behaviour at a concrete unbound
agent. -/
theorem tools_before_binding_raise_witness :
    (initAgent dialInfoExample).participant = none ∧
    (end_call (initAgent dialInfoExample) false).2 =
      Except.error (PyError.attributeError "identity") :=
  ⟨rfl, (tools_before_binding_raise (initAgent dialInfoExample) false false
      "2025-10-14" "3pm" rfl).1⟩

/-- C3: in every run of `entrypoint`, the conversational session start is
issued before the outbound dial request: scanning the trace left to right,
no `dialRequest` occurs before a `startSession`. -/
theorem session_start_precedes_dial (metadata : Dict) (dialFails : Bool) :
    noDialBeforeSession (entrypoint metadata dialFails).trace = true := by
  unfold entrypoint
  cases dictGet metadata "phone_number" with
  | none => rfl
  | some p => cases dialFails <;> rfl

/-- C4: when the dial fails (`create_sip_participant` raises `TwirpError`),
`entrypoint` logs the failure and shuts the job (and with it the started
session) down exactly once, and never binds a participant: the trace is
connect, session start, dial request, error log, shutdown — with one
shutdown, no binding, and the agent left unbound. -/
theorem dial_failure_no_leak (metadata : Dict) (p : String)
    (h : dictGet metadata "phone_number" = some p) :
    (entrypoint metadata true).trace =
      [Event.connect, Event.startSession, Event.dialRequest p,
       Event.logError, Event.shutdown] ∧
    (entrypoint metadata true).bound = none ∧
    List.countP isShutdown (entrypoint metadata true).trace = 1 ∧
    List.countP isBind (entrypoint metadata true).trace = 0 := by
  simp [entrypoint, h, isShutdown, isBind, List.countP, List.countP.go]

/-- C4 (witness): the dial-failure path at a concrete metadata dict. -/
theorem dial_failure_no_leak_witness :
    dictGet dialInfoExample "phone_number" = some "+15551230000" ∧
    (entrypoint dialInfoExample true).bound = none :=
  ⟨by decide, (dial_failure_no_leak dialInfoExample "+15551230000"
      (by decide)).2.1⟩

/-- C5: `transfer_call` with an empty configured transfer target returns
the declined "cannot transfer call" result with an empty trace: no speech,
no transfer request, no hangup — the gateway is never contacted and the
call stays up unchanged. -/
theorem transfer_call_empty_target_declined (a : AgentState)
    (transferRaises : Bool) (h : dictGet a.dial_info "transfer_to" = some "") :
    transfer_call a transferRaises =
      ([], Except.ok (ToolResult.str "cannot transfer call")) := by
  simp [transfer_call, h]

/-- C5 (witness): the declined result at a concrete agent whose
`transfer_to` is the empty string. -/
theorem transfer_call_empty_target_declined_witness :
    dictGet [("transfer_to", "")] "transfer_to" = some "" ∧
    transfer_call (initAgent [("transfer_to", "")]) false =
      ([], Except.ok (ToolResult.str "cannot transfer call")) :=
  ⟨by decide, transfer_call_empty_target_declined
      (initAgent [("transfer_to", "")]) false (by decide)⟩

/-- C6: on a successful transfer (non-empty target, bound participant, no
gateway error), the trace of `transfer_call` is exactly the awaited
transfer-notice utterance followed by the gateway transfer request: the
notice is issued and fully played before the line is handed off. -/
theorem transfer_notice_precedes_request (a : AgentState)
    (p : RemoteParticipant) (tt : String)
    (h1 : dictGet a.dial_info "transfer_to" = some tt) (h2 : tt ≠ "")
    (h3 : a.participant = some p) :
    (transfer_call a false).1 =
      [Event.generateReply transferNoticeText,
       Event.transferRequest p.identity ("tel:" ++ tt)] := by
  simp [transfer_call, h1, h2, h3]

/-- C6 (witness): the successful-transfer trace at a concrete bound
agent. -/
theorem transfer_notice_precedes_request_witness :
    dictGet dialInfoExample "transfer_to" = some "+15559998888" ∧
    (transfer_call (set_participant (initAgent dialInfoExample)
        { identity := "+15551230000" }) false).1 =
      [Event.generateReply transferNoticeText,
       Event.transferRequest "+15551230000" ("tel:" ++ "+15559998888")] :=
  ⟨by decide, transfer_notice_precedes_request _ { identity := "+15551230000" }
      "+15559998888" (by decide) (by decide) rfl⟩

/-- C7: when the gateway transfer request raises, `transfer_call` catches
the error locally (its result is a normal `None` return, never a propagated
exception) and its trace is notice, transfer request, apology, hangup: the
spoken apology precedes the `delete_room` teardown. -/
theorem transfer_error_apology_then_hangup (a : AgentState)
    (p : RemoteParticipant) (tt : String)
    (h1 : dictGet a.dial_info "transfer_to" = some tt) (h2 : tt ≠ "")
    (h3 : a.participant = some p) :
    (transfer_call a true).2 = Except.ok ToolResult.noneVal ∧
    (transfer_call a true).1 =
      [Event.generateReply transferNoticeText,
       Event.transferRequest p.identity ("tel:" ++ tt),
       Event.generateReply transferApologyText,
       Event.deleteRoom] := by
  constructor <;> simp [transfer_call, h1, h2, h3, hangup]

/-- C7 (witness): the caught-error path at a concrete bound agent. -/
theorem transfer_error_apology_then_hangup_witness :
    dictGet dialInfoExample "transfer_to" = some "+15559998888" ∧
    (transfer_call (set_participant (initAgent dialInfoExample)
        { identity := "+15551230000" }) true).2 =
      Except.ok ToolResult.noneVal :=
  ⟨by decide, (transfer_error_apology_then_hangup _
      { identity := "+15551230000" } "+15559998888"
      (by decide) (by decide) rfl).1⟩

/-- C8: `end_call` on a bound participant waits for an in-flight utterance
before tearing down: with current speech reported, its trace is
`wait_for_playout` followed by the `delete_room` hangup, so the teardown
happens after utterance completion; with no current speech it hangs up
directly. -/
theorem end_call_waits_for_playout (a : AgentState) (p : RemoteParticipant)
    (h : a.participant = some p) :
    (end_call a true).1 = [Event.waitForPlayout, Event.deleteRoom] ∧
    (end_call a false).1 = [Event.deleteRoom] := by
  constructor <;> simp [end_call, h, hangup]

/-- C8 (witness): the playout-then-hangup trace at a concrete bound
agent. -/
theorem end_call_waits_for_playout_witness :
    (set_participant (initAgent dialInfoExample)
        { identity := "+15551230000" }).participant =
      some { identity := "+15551230000" } ∧
    (end_call (set_participant (initAgent dialInfoExample)
        { identity := "+15551230000" }) true).1 =
      [Event.waitForPlayout, Event.deleteRoom] :=
  ⟨rfl, (end_call_waits_for_playout _ { identity := "+15551230000" } rfl).1⟩

/-- C9: `detected_answering_machine` on a bound participant tears down
immediately and silently: its whole trace is the single `delete_room`
request — no `generate_reply` (no closing remark) and nothing before the
hangup. -/
theorem detected_answering_machine_immediate_hangup (a : AgentState)
    (p : RemoteParticipant) (h : a.participant = some p) :
    (detected_answering_machine a).1 = [Event.deleteRoom] ∧
    List.countP isSpeech (detected_answering_machine a).1 = 0 := by
  constructor <;> simp [detected_answering_machine, h, hangup, isSpeech,
    List.countP, List.countP.go]

/-- C9 (witness): the silent immediate hangup at a concrete bound agent. -/
theorem detected_answering_machine_immediate_hangup_witness :
    (set_participant (initAgent dialInfoExample)
        { identity := "+15551230000" }).participant =
      some { identity := "+15551230000" } ∧
    (detected_answering_machine (set_participant (initAgent dialInfoExample)
        { identity := "+15551230000" })).1 = [Event.deleteRoom] :=
  ⟨rfl, (detected_answering_machine_immediate_hangup _
      { identity := "+15551230000" } rfl).1⟩

/-- C10: when `dial_info` has no "transfer_to" key at all, `transfer_call`
raises `KeyError` at the dict access and never reaches the declined branch:
its result is the exception, not the "cannot transfer call" string. -/
theorem transfer_call_missing_key_raises (a : AgentState)
    (transferRaises : Bool) (h : dictGet a.dial_info "transfer_to" = none) :
    (transfer_call a transferRaises).2 =
      Except.error (PyError.keyError "transfer_to") ∧
    (transfer_call a transferRaises).2 ≠
      Except.ok (ToolResult.str "cannot transfer call") := by
  constructor <;> simp [transfer_call, h]

/-- C10 (witness): the `KeyError` at a concrete agent whose `dial_info`
lacks the "transfer_to" key. -/
theorem transfer_call_missing_key_raises_witness :
    dictGet [("phone_number", "+15551230000")] "transfer_to" = none ∧
    (transfer_call (initAgent [("phone_number", "+15551230000")]) false).2 =
      Except.error (PyError.keyError "transfer_to") :=
  ⟨by decide, (transfer_call_missing_key_raises
      (initAgent [("phone_number", "+15551230000")]) false (by decide)).1⟩
